import Mathlib

/-!
Verification of the backyard-flyer flight state machine
(`src/backyard_flyer.py`) against its natural-language specification.

Shallow embedding conventions:
* positions / velocities are 3-component rational vectors (`Vec3`);
  the Python source computes with float64, the claims only involve
  exactly-representable decimal constants, so ℚ is faithful for them;
* `np.linalg.norm v < c` for a planar (2-component) vector `v` and a
  constant `c ≥ 0` is embedded as the equivalent squared comparison
  `v.x^2 + v.y^2 < c^2` (both sides nonnegative, squaring is monotone),
  keeping every definition executable and decidable;
* Python's `list.pop(0)`, which raises `IndexError` on an empty list,
  is embedded through `Option`: a handler that would raise returns
  `none`;
* each `self.<command>()` call on the drone is recorded as an emitted
  `Command` value, in call order.
-/

namespace BackyardFlyer

/-- The `States` enum of the source (`class States(Enum)`). -/
inductive States where
  | MANUAL
  | ARMING
  | TAKEOFF
  | WAYPOINT
  | LANDING
  | DISARMING
deriving DecidableEq, Repr

/-- A 3-component vector in the local frame (north, east, down). -/
structure Vec3 where
  x : ℚ
  y : ℚ
  z : ℚ
deriving DecidableEq, Repr

/-- The abstract command intents issued by the state machine, one per
drone-API call in the source. -/
inductive Command where
  | take_control
  | arm
  | set_home_position (lat lon alt : ℚ)
  | takeoff (altitude : ℚ)
  | cmd_position (x y z heading : ℚ)
  | land
  | disarm
  | release_control
  | stop
deriving DecidableEq, Repr

/-- The mutable session state of `BackyardFlyer`: `target_position`,
`all_waypoints`, `in_mission` and `flight_state` as set up in
`__init__`. -/
structure Session where
  target_position : Vec3
  all_waypoints : List Vec3
  in_mission : Bool
  flight_state : States
deriving DecidableEq, Repr

/-- The session as constructed by `BackyardFlyer.__init__`. -/
def initSession : Session :=
  { target_position := ⟨0, 0, 0⟩
    all_waypoints := []
    in_mission := true
    flight_state := States.MANUAL }

/-- `flight_plan_coordinates`: the constant plan
`[x_start, x_end, y_start, y_end, altitude] = [0.0, 20.0, 0.0, 20.0, 3.0]`. -/
structure FlightPlan where
  x_start : ℚ
  x_end : ℚ
  y_start : ℚ
  y_end : ℚ
  altitude : ℚ
deriving DecidableEq, Repr

def flight_plan_coordinates : FlightPlan :=
  ⟨0, 20, 0, 20, 3⟩

/-- The body of `calculate_box`, abstracted over the plan it
destructures: `[[x_end, y_start, altitude], [x_end, y_end, altitude],
[x_start, y_end, altitude], [x_start, y_start, altitude]]`.  The source
performs no validation on the plan. -/
def calculate_box_from (p : FlightPlan) : List Vec3 :=
  [ ⟨p.x_end, p.y_start, p.altitude⟩
  , ⟨p.x_end, p.y_end, p.altitude⟩
  , ⟨p.x_start, p.y_end, p.altitude⟩
  , ⟨p.x_start, p.y_start, p.altitude⟩ ]

/-- `calculate_box`: waypoints for the box flight, from the constant
plan. -/
def calculate_box : List Vec3 :=
  calculate_box_from flight_plan_coordinates

/-- Squared planar distance between two points: the square of
`np.linalg.norm(a[0:2] - b[0:2])`. -/
def planarDistSq (a b : Vec3) : ℚ :=
  (a.x - b.x) ^ 2 + (a.y - b.y) ^ 2

/-- Squared planar speed: the square of `np.linalg.norm(v[0:2])`. -/
def planarSpeedSq (v : Vec3) : ℚ :=
  v.x ^ 2 + v.y ^ 2

/-- `waypoint_transition`: pop the first waypoint (`pop(0)`, `none` if
the list is empty, where Python raises), set it as the target, emit
`cmd_position(x, y, z, 0.0)`, set state to `WAYPOINT`. -/
def waypoint_transition (s : Session) : Option (Session × List Command) :=
  match s.all_waypoints with
  | [] => none
  | w :: rest =>
      some ( { s with target_position := w
                      all_waypoints := rest
                      flight_state := States.WAYPOINT }
           , [Command.cmd_position w.x w.y w.z 0] )

/-- `landing_transition`: emit `land`, set state to `LANDING`. -/
def landing_transition (s : Session) : Session × List Command :=
  ({ s with flight_state := States.LANDING }, [Command.land])

/-- `disarming_transition`: emit `disarm`, set state to `DISARMING`. -/
def disarming_transition (s : Session) : Session × List Command :=
  ({ s with flight_state := States.DISARMING }, [Command.disarm])

/-- `arming_transition`: emit `take_control`, `arm`,
`set_home_position(global_position)`, set state to `ARMING`. -/
def arming_transition (s : Session) (global_position : Vec3) :
    Session × List Command :=
  ( { s with flight_state := States.ARMING }
  , [ Command.take_control
    , Command.arm
    , Command.set_home_position global_position.x global_position.y
        global_position.z ] )

/-- `takeoff_transition`: set `target_position[2]` to the plan altitude,
emit `takeoff(altitude)`, set state to `TAKEOFF`. -/
def takeoff_transition (s : Session) : Session × List Command :=
  ( { s with
        target_position := { s.target_position with
                               z := flight_plan_coordinates.altitude }
        flight_state := States.TAKEOFF }
  , [Command.takeoff flight_plan_coordinates.altitude] )

/-- `manual_transition`: emit `release_control`, `stop`, set
`in_mission` to `false`, set state to `MANUAL`. -/
def manual_transition (s : Session) : Session × List Command :=
  ( { s with in_mission := false, flight_state := States.MANUAL }
  , [Command.release_control, Command.stop] )

/-- `local_position_callback`, reading `self.local_position` and
`self.local_velocity`.  In `TAKEOFF`, if `-local_position[2] >
0.95 * target_position[2]`, set the waypoint queue from `calculate_box`
and run `waypoint_transition`.  In `WAYPOINT`, if the planar distance to
the target is `< 1.0`: pop the next waypoint when the queue is
non-empty, else land when the planar speed is `< 0.1`. -/
def local_position_callback (s : Session)
    (local_position local_velocity : Vec3) :
    Option (Session × List Command) :=
  if s.flight_state = States.TAKEOFF then
    if -1 * local_position.z > 95 / 100 * s.target_position.z then
      waypoint_transition { s with all_waypoints := calculate_box }
    else
      some (s, [])
  else if s.flight_state = States.WAYPOINT then
    if planarDistSq s.target_position local_position < 1 ^ 2 then
      if 0 < s.all_waypoints.length then
        waypoint_transition s
      else if planarSpeedSq local_velocity < (1 / 10) ^ 2 then
        some (landing_transition s)
      else
        some (s, [])
    else
      some (s, [])
  else
    some (s, [])

/-- `velocity_callback`, reading `self.global_position`,
`self.global_home` and `self.local_position`.  In `LANDING`, disarm when
`global_position[2] - global_home[2] < 0.1` and
`abs(local_position[2]) < 0.05`. -/
def velocity_callback (s : Session)
    (global_position global_home local_position : Vec3) :
    Session × List Command :=
  if s.flight_state = States.LANDING then
    if global_position.z - global_home.z < 1 / 10 then
      if |local_position.z| < 5 / 100 then
        disarming_transition s
      else
        (s, [])
    else
      (s, [])
  else
    (s, [])

/-- `state_callback`, reading `self.global_position` (through
`arming_transition`).  No-op when `in_mission` is false; otherwise
dispatch on the phase: `MANUAL → arming_transition`,
`ARMING → takeoff_transition`, `DISARMING → manual_transition`. -/
def state_callback (s : Session) (global_position : Vec3) :
    Session × List Command :=
  if s.in_mission = false then
    (s, [])
  else if s.flight_state = States.MANUAL then
    arming_transition s global_position
  else if s.flight_state = States.ARMING then
    takeoff_transition s
  else if s.flight_state = States.DISARMING then
    manual_transition s
  else
    (s, [])

/-- `is_mission_complete(session) == !in_mission` (spec §6). -/
def is_mission_complete (s : Session) : Bool :=
  !s.in_mission

/-- A telemetry event: one delivered sample, tagged with its kind and
carrying the drone readings the corresponding callback consumes. -/
inductive Event where
  | pos (local_position local_velocity : Vec3)
  | vel (global_position global_home local_position : Vec3)
  | state (global_position : Vec3)
deriving DecidableEq, Repr

/-- One step of the machine: dispatch an event to its callback. -/
def step (s : Session) : Event → Option (Session × List Command)
  | Event.pos lp lv => local_position_callback s lp lv
  | Event.vel gp gh lp => some (velocity_callback s gp gh lp)
  | Event.state gp => some (state_callback s gp)

/-- The successor of each phase in the fixed mission cycle
`Manual → Arming → Takeoff → Waypoint → Landing → Disarming → Manual`. -/
def nextPhase : States → States
  | States.MANUAL => States.ARMING
  | States.ARMING => States.TAKEOFF
  | States.TAKEOFF => States.WAYPOINT
  | States.WAYPOINT => States.LANDING
  | States.LANDING => States.DISARMING
  | States.DISARMING => States.MANUAL

/-- Sessions reachable from the initial session by delivered telemetry
events (a step that would raise is not a delivered transition). -/
inductive Reachable : Session → Prop where
  | init : Reachable initSession
  | step {s : Session} {e : Event} {s' : Session} {cmds : List Command} :
      Reachable s → step s e = some (s', cmds) → Reachable s'

/-- Deliver a list of events in order (`none` if some step raises). -/
def run (s : Session) : List Event → Option Session
  | [] => some s
  | e :: es => (step s e).bind fun p => run p.1 es

/-! ## Helper lemmas -/

/-- A successful `waypoint_transition` pops the head of the queue. -/
theorem waypoint_transition_eq {s s' : Session} {c : List Command}
    (h : waypoint_transition s = some (s', c)) :
    ∃ w rest, s.all_waypoints = w :: rest ∧
      s' = { s with target_position := w
                    all_waypoints := rest
                    flight_state := States.WAYPOINT } ∧
      c = [Command.cmd_position w.x w.y w.z 0] := by
  unfold waypoint_transition at h
  cases hq : s.all_waypoints with
  | nil => rw [hq] at h; cases h
  | cons w rest =>
      rw [hq] at h
      simp only [Option.some.injEq, Prod.mk.injEq] at h
      exact ⟨w, rest, rfl, h.1.symm, h.2.symm⟩

/-- Characterization of one delivered step: either the session is
unchanged with nothing emitted, or it takes one of the seven
transitions, with the stated effect on the phase and the queue. -/
theorem step_phase_queue {s : Session} {e : Event} {s' : Session}
    {cmds : List Command} (h : step s e = some (s', cmds)) :
    (s' = s ∧ cmds = []) ∨
    (s.flight_state = States.TAKEOFF ∧
      s'.flight_state = States.WAYPOINT ∧
      s'.all_waypoints.length = 3) ∨
    (s.flight_state = States.WAYPOINT ∧
      s'.flight_state = States.WAYPOINT ∧
      s'.all_waypoints.length + 1 = s.all_waypoints.length) ∨
    (s.flight_state = States.WAYPOINT ∧
      s'.flight_state = States.LANDING ∧
      s'.all_waypoints = s.all_waypoints ∧ s.all_waypoints = []) ∨
    (s.flight_state = States.LANDING ∧
      s'.flight_state = States.DISARMING ∧
      s'.all_waypoints = s.all_waypoints) ∨
    (s.flight_state = States.MANUAL ∧
      s'.flight_state = States.ARMING ∧
      s'.all_waypoints = s.all_waypoints) ∨
    (s.flight_state = States.ARMING ∧
      s'.flight_state = States.TAKEOFF ∧
      s'.all_waypoints = s.all_waypoints) ∨
    (s.flight_state = States.DISARMING ∧
      s'.flight_state = States.MANUAL ∧
      s'.all_waypoints = s.all_waypoints) := by
  cases e with
  | pos lp lv =>
    simp only [step] at h
    unfold local_position_callback at h
    split_ifs at h with h1 h2 h3 h4 h5 h6
    · obtain ⟨w, rest, hq, hs, -⟩ := waypoint_transition_eq h
      right; left
      refine ⟨h1, by rw [hs], ?_⟩
      have hlen : (w :: rest).length = 4 := by
        rw [← hq]; rfl
      simp only [List.length_cons] at hlen
      rw [hs]
      simpa using Nat.succ_injective hlen
    · simp only [Option.some.injEq, Prod.mk.injEq] at h
      exact Or.inl ⟨h.1.symm, h.2.symm⟩
    · obtain ⟨w, rest, hq, hs, -⟩ := waypoint_transition_eq h
      right; right; left
      refine ⟨h3, by rw [hs], ?_⟩
      rw [hs, hq]
      simp
    · right; right; right; left
      simp only [landing_transition, Option.some.injEq,
        Prod.mk.injEq] at h
      refine ⟨h3, by rw [← h.1], by rw [← h.1], ?_⟩
      exact List.length_eq_zero.mp (Nat.eq_zero_of_not_pos h5)
    · simp only [Option.some.injEq, Prod.mk.injEq] at h
      exact Or.inl ⟨h.1.symm, h.2.symm⟩
    · simp only [Option.some.injEq, Prod.mk.injEq] at h
      exact Or.inl ⟨h.1.symm, h.2.symm⟩
    · simp only [Option.some.injEq, Prod.mk.injEq] at h
      exact Or.inl ⟨h.1.symm, h.2.symm⟩
  | vel gp gh lp =>
    simp only [step, Option.some.injEq] at h
    unfold velocity_callback at h
    split_ifs at h with h1 h2 h3
    · right; right; right; right; left
      simp only [disarming_transition, Prod.mk.injEq] at h
      exact ⟨h1, by rw [← h.1], by rw [← h.1]⟩
    · simp only [Prod.mk.injEq] at h
      exact Or.inl ⟨h.1.symm, h.2.symm⟩
    · simp only [Prod.mk.injEq] at h
      exact Or.inl ⟨h.1.symm, h.2.symm⟩
    · simp only [Prod.mk.injEq] at h
      exact Or.inl ⟨h.1.symm, h.2.symm⟩
  | state gp =>
    simp only [step, Option.some.injEq] at h
    unfold state_callback at h
    split_ifs at h with h1 h2 h3 h4
    · simp only [Prod.mk.injEq] at h
      exact Or.inl ⟨h.1.symm, h.2.symm⟩
    · right; right; right; right; right; left
      simp only [arming_transition, Prod.mk.injEq] at h
      exact ⟨h2, by rw [← h.1], by rw [← h.1]⟩
    · right; right; right; right; right; right; left
      simp only [takeoff_transition, Prod.mk.injEq] at h
      exact ⟨h3, by rw [← h.1], by rw [← h.1]⟩
    · right; right; right; right; right; right; right
      simp only [manual_transition, Prod.mk.injEq] at h
      exact ⟨h4, by rw [← h.1], by rw [← h.1]⟩
    · simp only [Prod.mk.injEq] at h
      exact Or.inl ⟨h.1.symm, h.2.symm⟩

/-! ## Theorems -/

/-- C5. `calculate_box` is pure and deterministic: for every plan with
`altitude > 0` it returns exactly 4 waypoints, each with z-component
equal to the plan altitude, in the fixed corner order
`(x_end, y_start), (x_end, y_end), (x_start, y_end), (x_start, y_start)`;
in particular for the plan `{0, 20, 0, 20, 3.0}` it returns
`[(20,0,3.0), (20,20,3.0), (0,20,3.0), (0,0,3.0)]`. -/
theorem calculate_box_spec (p : FlightPlan) (hp : 0 < p.altitude) :
    calculate_box_from p =
      [ ⟨p.x_end, p.y_start, p.altitude⟩
      , ⟨p.x_end, p.y_end, p.altitude⟩
      , ⟨p.x_start, p.y_end, p.altitude⟩
      , ⟨p.x_start, p.y_start, p.altitude⟩ ] ∧
    (calculate_box_from p).length = 4 ∧
    (∀ w ∈ calculate_box_from p, w.z = p.altitude) ∧
    calculate_box_from ⟨0, 20, 0, 20, 3⟩ =
      [⟨20, 0, 3⟩, ⟨20, 20, 3⟩, ⟨0, 20, 3⟩, ⟨0, 0, 3⟩] := by
  refine ⟨rfl, rfl, ?_, rfl⟩
  intro w hw
  simp only [calculate_box_from, List.mem_cons, List.not_mem_nil,
    or_false] at hw
  rcases hw with h | h | h | h <;> subst h <;> rfl

/-- Witness for C5 at the constant plan of the source. -/
theorem calculate_box_spec_witness :
    (0 : ℚ) < (3 : ℚ) ∧
    calculate_box_from ⟨0, 20, 0, 20, 3⟩ =
      [ ⟨(20 : ℚ), 0, 3⟩, ⟨20, 20, 3⟩, ⟨0, 20, 3⟩, ⟨0, 0, 3⟩ ] :=
  ⟨by norm_num, (calculate_box_spec ⟨0, 20, 0, 20, 3⟩ (by norm_num)).1⟩

/-- C1. In phase `Takeoff`, a position update with
`-position.z > 0.95 * target_position.z` generates the 4-waypoint box
queue, pops its first waypoint `(20, 0, 3)` as the new target, emits the
fly-to-position command for it, and moves to `Waypoint` with exactly 3
waypoints remaining; when the altitude condition fails, the session is
unchanged and nothing is emitted. -/
theorem takeoff_transition_spec (s : Session) (lp lv : Vec3)
    (hphase : s.flight_state = States.TAKEOFF) :
    (-1 * lp.z > 95 / 100 * s.target_position.z →
      local_position_callback s lp lv =
        some ( { s with target_position := ⟨20, 0, 3⟩
                        all_waypoints := calculate_box.tail
                        flight_state := States.WAYPOINT }
             , [Command.cmd_position 20 0 3 0] ) ∧
      calculate_box.length = 4 ∧ calculate_box.tail.length = 3) ∧
    (¬ (-1 * lp.z > 95 / 100 * s.target_position.z) →
      local_position_callback s lp lv = some (s, [])) := by
  constructor
  · intro hcond
    refine ⟨?_, rfl, rfl⟩
    have hcond' : 95 / 100 * s.target_position.z < -lp.z := by linarith
    simp [local_position_callback, hphase, hcond', waypoint_transition,
      calculate_box, calculate_box_from, flight_plan_coordinates]
  · intro hcond
    have hcond' : ¬ 95 / 100 * s.target_position.z < -lp.z := by
      intro h
      exact hcond (by linarith)
    simp [local_position_callback, hphase, hcond']

/-- Witness for C1: a concrete `Takeoff` session with target altitude 3
and a sample at altitude `2.88 = 0.96 * 3`. -/
theorem takeoff_transition_spec_witness :
    ({ target_position := ⟨0, 0, 3⟩, all_waypoints := [],
       in_mission := true, flight_state := States.TAKEOFF } :
        Session).flight_state = States.TAKEOFF ∧
    (-1 * (⟨0, 0, -288/100⟩ : Vec3).z >
      95 / 100 * ({ target_position := ⟨0, 0, 3⟩, all_waypoints := [],
                    in_mission := true,
                    flight_state := States.TAKEOFF } :
        Session).target_position.z) ∧
    local_position_callback
      { target_position := ⟨0, 0, 3⟩, all_waypoints := [],
        in_mission := true, flight_state := States.TAKEOFF }
      ⟨0, 0, -288/100⟩ ⟨0, 0, 0⟩ =
      some ( { target_position := ⟨20, 0, 3⟩
               all_waypoints := [⟨20, 20, 3⟩, ⟨0, 20, 3⟩, ⟨0, 0, 3⟩]
               in_mission := true
               flight_state := States.WAYPOINT }
           , [Command.cmd_position 20 0 3 0] ) := by
  have h := (takeoff_transition_spec
    { target_position := ⟨0, 0, 3⟩, all_waypoints := [],
      in_mission := true, flight_state := States.TAKEOFF }
    ⟨0, 0, -288/100⟩ ⟨0, 0, 0⟩ rfl).1 (by norm_num)
  exact ⟨rfl, by norm_num, by rw [h.1]; rfl⟩

/-- C2. In phase `Waypoint` with a non-empty waypoint queue, a position
sample at squared planar distance `< 1` from the target pops the front
waypoint as the new target, emits the fly-to-position command for it,
keeps the phase `Waypoint`, and shrinks the queue by exactly one; a
sample at squared planar distance `≥ 1` leaves the session unchanged
with nothing emitted. -/
theorem waypoint_advance_spec (s : Session) (lp lv : Vec3) (w : Vec3)
    (rest : List Vec3)
    (hphase : s.flight_state = States.WAYPOINT)
    (hq : s.all_waypoints = w :: rest) :
    (planarDistSq s.target_position lp < 1 →
      local_position_callback s lp lv =
        some ( { s with target_position := w
                        all_waypoints := rest
                        flight_state := States.WAYPOINT }
             , [Command.cmd_position w.x w.y w.z 0] ) ∧
      rest.length = s.all_waypoints.length - 1) ∧
    (¬ planarDistSq s.target_position lp < 1 →
      local_position_callback s lp lv = some (s, [])) := by
  have hnotTak : ¬ s.flight_state = States.TAKEOFF := by
    rw [hphase]; intro h; cases h
  constructor
  · intro hdist
    refine ⟨?_, by rw [hq]; simp⟩
    simp [local_position_callback, hnotTak, hphase, hdist,
      waypoint_transition, hq]
  · intro hdist
    simp [local_position_callback, hnotTak, hphase, hdist]

/-- Witness for C2: the spec's own scenario — target `(20,0,3)`, queue
`[(20,20,3), (0,20,3), (0,0,3)]`, sample at planar distance `0.5`. -/
theorem waypoint_advance_spec_witness :
    ({ target_position := ⟨20, 0, 3⟩
       all_waypoints := [⟨20, 20, 3⟩, ⟨0, 20, 3⟩, ⟨0, 0, 3⟩]
       in_mission := true, flight_state := States.WAYPOINT } :
        Session).flight_state = States.WAYPOINT ∧
    planarDistSq (⟨20, 0, 3⟩ : Vec3) ⟨39/2, 0, -3⟩ < 1 ∧
    local_position_callback
      { target_position := ⟨20, 0, 3⟩
        all_waypoints := [⟨20, 20, 3⟩, ⟨0, 20, 3⟩, ⟨0, 0, 3⟩]
        in_mission := true, flight_state := States.WAYPOINT }
      ⟨39/2, 0, -3⟩ ⟨3, 4, 0⟩ =
      some ( { target_position := ⟨20, 20, 3⟩
               all_waypoints := [⟨0, 20, 3⟩, ⟨0, 0, 3⟩]
               in_mission := true
               flight_state := States.WAYPOINT }
           , [Command.cmd_position 20 20 3 0] ) := by
  have h := (waypoint_advance_spec
    { target_position := ⟨20, 0, 3⟩
      all_waypoints := [⟨20, 20, 3⟩, ⟨0, 20, 3⟩, ⟨0, 0, 3⟩]
      in_mission := true, flight_state := States.WAYPOINT }
    ⟨39/2, 0, -3⟩ ⟨3, 4, 0⟩ ⟨20, 20, 3⟩ [⟨0, 20, 3⟩, ⟨0, 0, 3⟩]
    rfl rfl).1 (by norm_num [planarDistSq])
  exact ⟨rfl, by norm_num [planarDistSq], by rw [h.1]⟩

/-- C3. In phase `Landing`, a velocity update transitions to
`Disarming` and emits a disarm command exactly when both
`global_position.z - global_home.z < 0.1` and `|local_position.z| <
0.05` hold; otherwise (in particular when only one of the two holds)
the session is unchanged and nothing is emitted. -/
theorem landing_disarm_spec (s : Session) (gp gh lp : Vec3)
    (hphase : s.flight_state = States.LANDING) :
    ((gp.z - gh.z < 1 / 10 ∧ |lp.z| < 5 / 100) →
      velocity_callback s gp gh lp =
        ({ s with flight_state := States.DISARMING }, [Command.disarm])) ∧
    (¬ (gp.z - gh.z < 1 / 10 ∧ |lp.z| < 5 / 100) →
      velocity_callback s gp gh lp = (s, [])) := by
  constructor
  · rintro ⟨h1, h2⟩
    unfold velocity_callback
    rw [if_pos hphase, if_pos h1, if_pos h2]
    rfl
  · intro hnot
    unfold velocity_callback
    rw [if_pos hphase]
    by_cases h1 : gp.z - gh.z < 1 / 10
    · rw [if_pos h1, if_neg (fun h2 => hnot ⟨h1, h2⟩)]
    · rw [if_neg h1]

/-- Witness for C3: a `Landing` session, global altitude `0.05` above
home, local vertical position `0.01`. -/
theorem landing_disarm_spec_witness :
    ({ target_position := ⟨0, 0, 3⟩, all_waypoints := [],
       in_mission := true, flight_state := States.LANDING } :
        Session).flight_state = States.LANDING ∧
    ((⟨0, 0, 5/100⟩ : Vec3).z - (⟨0, 0, 0⟩ : Vec3).z < 1 / 10 ∧
      |(⟨0, 0, 1/100⟩ : Vec3).z| < 5 / 100) ∧
    velocity_callback
      { target_position := ⟨0, 0, 3⟩, all_waypoints := [],
        in_mission := true, flight_state := States.LANDING }
      ⟨0, 0, 5/100⟩ ⟨0, 0, 0⟩ ⟨0, 0, 1/100⟩ =
      ( { target_position := ⟨0, 0, 3⟩, all_waypoints := [],
          in_mission := true, flight_state := States.DISARMING }
      , [Command.disarm] ) := by
  have habs : |(⟨0, 0, 1/100⟩ : Vec3).z| < 5 / 100 := by
    rw [show (⟨0, 0, 1/100⟩ : Vec3).z = 1/100 from rfl, abs_lt]
    constructor <;> norm_num
  refine ⟨rfl, ⟨by norm_num, habs⟩, ?_⟩
  have h := (landing_disarm_spec
    { target_position := ⟨0, 0, 3⟩, all_waypoints := [],
      in_mission := true, flight_state := States.LANDING }
    ⟨0, 0, 5/100⟩ ⟨0, 0, 0⟩ ⟨0, 0, 1/100⟩ rfl).1
    ⟨by norm_num, habs⟩
  rw [h]

/-- C4. In phase `Waypoint` with an empty queue and a position sample
within planar distance `1.0` of the target, the machine transitions to
`Landing` and emits a land command exactly when the squared planar
speed is `< 0.1²`; at squared planar speed `≥ 0.1²` it stays in
`Waypoint` with the session (in particular the queue) unchanged and
emits nothing. -/
theorem waypoint_landing_spec (s : Session) (lp lv : Vec3)
    (hphase : s.flight_state = States.WAYPOINT)
    (hq : s.all_waypoints = [])
    (hdist : planarDistSq s.target_position lp < 1) :
    (planarSpeedSq lv < (1 / 10) ^ 2 →
      local_position_callback s lp lv =
        some ({ s with flight_state := States.LANDING }, [Command.land])) ∧
    (¬ planarSpeedSq lv < (1 / 10) ^ 2 →
      local_position_callback s lp lv = some (s, []) ∧
      s.flight_state = States.WAYPOINT ∧ s.all_waypoints = []) := by
  have hnotTak : ¬ s.flight_state = States.TAKEOFF := by
    rw [hphase]; intro h; cases h
  have hlen : ¬ 0 < s.all_waypoints.length := by rw [hq]; simp
  constructor
  · intro hspeed
    have hspeed' : planarSpeedSq lv < ((10 : ℚ) ^ 2)⁻¹ := by
      rw [show ((10 : ℚ) ^ 2)⁻¹ = (1 / 10) ^ 2 by norm_num]
      exact hspeed
    simp [local_position_callback, hnotTak, hphase, hdist, hlen,
      hspeed', landing_transition]
  · intro hspeed
    have hspeed' : ¬ planarSpeedSq lv < ((10 : ℚ) ^ 2)⁻¹ := by
      rw [show ((10 : ℚ) ^ 2)⁻¹ = (1 / 10) ^ 2 by norm_num]
      exact hspeed
    exact ⟨by simp [local_position_callback, hnotTak, hphase, hdist,
      hlen, hspeed'], hphase, hq⟩

/-- Witness for C4: at the last waypoint `(0,0,3)`, planar distance
`0.5` from the target, planar speed `0.05 < 0.1`. -/
theorem waypoint_landing_spec_witness :
    ({ target_position := ⟨0, 0, 3⟩, all_waypoints := [],
       in_mission := true, flight_state := States.WAYPOINT } :
        Session).flight_state = States.WAYPOINT ∧
    planarDistSq (⟨0, 0, 3⟩ : Vec3) ⟨1/2, 0, -3⟩ < 1 ∧
    planarSpeedSq (⟨5/100, 0, 0⟩ : Vec3) < (1 / 10) ^ 2 ∧
    local_position_callback
      { target_position := ⟨0, 0, 3⟩, all_waypoints := [],
        in_mission := true, flight_state := States.WAYPOINT }
      ⟨1/2, 0, -3⟩ ⟨5/100, 0, 0⟩ =
      some ( { target_position := ⟨0, 0, 3⟩, all_waypoints := [],
               in_mission := true, flight_state := States.LANDING }
           , [Command.land] ) := by
  refine ⟨rfl, by norm_num [planarDistSq], by norm_num [planarSpeedSq], ?_⟩
  have h := (waypoint_landing_spec
    { target_position := ⟨0, 0, 3⟩, all_waypoints := [],
      in_mission := true, flight_state := States.WAYPOINT }
    ⟨1/2, 0, -3⟩ ⟨5/100, 0, 0⟩ rfl rfl
    (by norm_num [planarDistSq])).1 (by norm_num [planarSpeedSq])
  rw [h]

/-- C6. A state event is a no-op when `in_mission` is false; with
`in_mission` true it acts by phase: `Manual → Arming` emitting
take-control, arm and set-home-to-current-position; `Arming → Takeoff`
setting the target altitude to the plan altitude `3.0` and emitting a
takeoff command; `Disarming → Manual` emitting release-control (and
stopping the connection) and clearing `in_mission`; every other phase
is a no-op.  Consequently three consecutive state events from `Manual`
with `in_mission` true give the phase sequence
`Manual → Arming → Takeoff`, the third event a no-op. -/
theorem state_callback_spec (s : Session) (gp : Vec3) :
    (s.in_mission = false → state_callback s gp = (s, [])) ∧
    (s.in_mission = true →
      (s.flight_state = States.MANUAL →
        state_callback s gp =
          ( { s with flight_state := States.ARMING }
          , [ Command.take_control, Command.arm
            , Command.set_home_position gp.x gp.y gp.z ] )) ∧
      (s.flight_state = States.ARMING →
        state_callback s gp =
          ( { s with
                target_position := { s.target_position with z := 3 }
                flight_state := States.TAKEOFF }
          , [Command.takeoff 3] )) ∧
      (s.flight_state = States.DISARMING →
        state_callback s gp =
          ( { s with in_mission := false
                     flight_state := States.MANUAL }
          , [Command.release_control, Command.stop] )) ∧
      ((s.flight_state = States.TAKEOFF ∨
        s.flight_state = States.WAYPOINT ∨
        s.flight_state = States.LANDING) →
        state_callback s gp = (s, []))) ∧
    (s.in_mission = true → s.flight_state = States.MANUAL →
      (state_callback s gp).1.flight_state = States.ARMING ∧
      (state_callback (state_callback s gp).1 gp).1.flight_state =
        States.TAKEOFF ∧
      state_callback (state_callback (state_callback s gp).1 gp).1 gp =
        ((state_callback (state_callback s gp).1 gp).1, [])) := by
  refine ⟨?_, ?_, ?_⟩
  · intro h
    simp [state_callback, h]
  · intro him
    refine ⟨?_, ?_, ?_, ?_⟩
    · intro hf
      simp [state_callback, him, hf, arming_transition]
    · intro hf
      have h1 : ¬ s.flight_state = States.MANUAL := by
        rw [hf]; intro h; cases h
      simp [state_callback, him, hf, h1, takeoff_transition,
        flight_plan_coordinates]
    · intro hf
      have h1 : ¬ s.flight_state = States.MANUAL := by
        rw [hf]; intro h; cases h
      have h2 : ¬ s.flight_state = States.ARMING := by
        rw [hf]; intro h; cases h
      simp [state_callback, him, hf, h1, h2, manual_transition]
    · intro hf
      rcases hf with hf | hf | hf <;>
        · have h1 : ¬ s.flight_state = States.MANUAL := by
            rw [hf]; intro h; cases h
          have h2 : ¬ s.flight_state = States.ARMING := by
            rw [hf]; intro h; cases h
          have h3 : ¬ s.flight_state = States.DISARMING := by
            rw [hf]; intro h; cases h
          simp [state_callback, him, h1, h2, h3]
  · intro him hf
    simp [state_callback, him, hf, arming_transition,
      takeoff_transition, flight_plan_coordinates]

/-- Witness for C6: three state events from the initial session. -/
theorem state_callback_spec_witness :
    initSession.in_mission = true ∧
    initSession.flight_state = States.MANUAL ∧
    (state_callback initSession ⟨1, 2, 3⟩).1.flight_state =
      States.ARMING ∧
    (state_callback (state_callback initSession ⟨1, 2, 3⟩).1
        ⟨1, 2, 3⟩).1.flight_state = States.TAKEOFF ∧
    state_callback
        (state_callback (state_callback initSession ⟨1, 2, 3⟩).1
          ⟨1, 2, 3⟩).1 ⟨1, 2, 3⟩ =
      ( (state_callback (state_callback initSession ⟨1, 2, 3⟩).1
          ⟨1, 2, 3⟩).1, [] ) := by
  have h := (state_callback_spec initSession ⟨1, 2, 3⟩).2.2 rfl rfl
  exact ⟨rfl, rfl, h.1, h.2.1, h.2.2⟩

/-- C7. A session in phase `Manual` with `in_mission` false is
absorbing: `is_mission_complete` holds, every event leaves the session
unchanged emitting nothing, every event sequence leaves it unchanged;
and the terminal state event from any in-mission `Disarming` session
produces exactly such a session. -/
theorem mission_complete_spec (s : Session)
    (hphase : s.flight_state = States.MANUAL)
    (hm : s.in_mission = false) :
    is_mission_complete s = true ∧
    (∀ e : Event, step s e = some (s, [])) ∧
    (∀ es : List Event, run s es = some s) ∧
    (∀ s' : Session, s'.flight_state = States.DISARMING →
      s'.in_mission = true → ∀ gp : Vec3,
      (state_callback s' gp).1.flight_state = States.MANUAL ∧
      (state_callback s' gp).1.in_mission = false ∧
      is_mission_complete (state_callback s' gp).1 = true) := by
  have hstep : ∀ e : Event, step s e = some (s, []) := by
    intro e
    have h1 : ¬ s.flight_state = States.TAKEOFF := by
      rw [hphase]; intro h; cases h
    have h2 : ¬ s.flight_state = States.WAYPOINT := by
      rw [hphase]; intro h; cases h
    have h3 : ¬ s.flight_state = States.LANDING := by
      rw [hphase]; intro h; cases h
    cases e with
    | pos lp lv => simp [step, local_position_callback, h1, h2]
    | vel gp gh lp => simp [step, velocity_callback, h3]
    | state gp => simp [step, state_callback, hm]
  refine ⟨by simp [is_mission_complete, hm], hstep, ?_, ?_⟩
  · intro es
    induction es with
    | nil => rfl
    | cons e es ih => simp [run, hstep e, ih]
  · intro s' hf him gp
    have h1 : ¬ s'.flight_state = States.MANUAL := by
      rw [hf]; intro h; cases h
    have h2 : ¬ s'.flight_state = States.ARMING := by
      rw [hf]; intro h; cases h
    simp [state_callback, him, hf, h1, h2, manual_transition,
      is_mission_complete]

/-- Witness for C7: the concrete post-mission session, a state event, a
two-event sequence, and the terminal transition from a `Disarming`
session. -/
theorem mission_complete_spec_witness :
    ({ target_position := ⟨0, 0, 3⟩, all_waypoints := [],
       in_mission := false, flight_state := States.MANUAL } :
        Session).flight_state = States.MANUAL ∧
    ({ target_position := ⟨0, 0, 3⟩, all_waypoints := [],
       in_mission := false, flight_state := States.MANUAL } :
        Session).in_mission = false ∧
    is_mission_complete
      { target_position := ⟨0, 0, 3⟩, all_waypoints := [],
        in_mission := false, flight_state := States.MANUAL } = true ∧
    step
      { target_position := ⟨0, 0, 3⟩, all_waypoints := [],
        in_mission := false, flight_state := States.MANUAL }
      (Event.state ⟨0, 0, 0⟩) =
      some ( { target_position := ⟨0, 0, 3⟩, all_waypoints := [],
               in_mission := false, flight_state := States.MANUAL }
           , [] ) ∧
    run
      { target_position := ⟨0, 0, 3⟩, all_waypoints := [],
        in_mission := false, flight_state := States.MANUAL }
      [Event.state ⟨0, 0, 0⟩, Event.pos ⟨0, 0, 0⟩ ⟨0, 0, 0⟩] =
      some { target_position := ⟨0, 0, 3⟩, all_waypoints := [],
             in_mission := false, flight_state := States.MANUAL } ∧
    (state_callback
      { target_position := ⟨0, 0, 3⟩, all_waypoints := [],
        in_mission := true, flight_state := States.DISARMING }
      ⟨0, 0, 0⟩).1.in_mission = false := by
  have h := mission_complete_spec
    { target_position := ⟨0, 0, 3⟩, all_waypoints := [],
      in_mission := false, flight_state := States.MANUAL } rfl rfl
  exact ⟨rfl, rfl, h.1, h.2.1 (Event.state ⟨0, 0, 0⟩),
    h.2.2.1 [Event.state ⟨0, 0, 0⟩, Event.pos ⟨0, 0, 0⟩ ⟨0, 0, 0⟩],
    (h.2.2.2
      { target_position := ⟨0, 0, 3⟩, all_waypoints := [],
        in_mission := true, flight_state := States.DISARMING }
      rfl rfl ⟨0, 0, 0⟩).2.1⟩

/-- C8 counterexample: `calculate_box` performs no validation — on a
plan with a negative altitude it returns its 4 waypoints normally
instead of failing with an `InvalidPlan` error. -/
theorem no_invalid_plan_rejection :
    calculate_box_from ⟨0, 20, 0, 20, -1⟩ =
      [⟨20, 0, -1⟩, ⟨20, 20, -1⟩, ⟨0, 20, -1⟩, ⟨0, 0, -1⟩] := rfl

/-- C8 (amended). The Mission Planner performs no validation: for every
plan, including ones with non-positive altitude, `calculate_box`
returns 4 waypoints and never fails; the only plan the program uses is
the hard-coded constant `{0, 20, 0, 20, 3.0}`, whose altitude is
positive; and telemetry delivered in a non-matching phase is a
non-erroring no-op. -/
theorem no_error_conditions :
    (∀ p : FlightPlan, (calculate_box_from p).length = 4) ∧
    flight_plan_coordinates = ⟨0, 20, 0, 20, 3⟩ ∧
    0 < flight_plan_coordinates.altitude ∧
    (∀ (s : Session) (lp lv : Vec3),
      ¬ s.flight_state = States.TAKEOFF →
      ¬ s.flight_state = States.WAYPOINT →
      local_position_callback s lp lv = some (s, [])) ∧
    (∀ (s : Session) (gp gh lp : Vec3),
      ¬ s.flight_state = States.LANDING →
      velocity_callback s gp gh lp = (s, [])) ∧
    (∀ (s : Session) (gp : Vec3), s.in_mission = true →
      (s.flight_state = States.TAKEOFF ∨
       s.flight_state = States.WAYPOINT ∨
       s.flight_state = States.LANDING) →
      state_callback s gp = (s, [])) := by
  refine ⟨fun p => rfl, rfl, by norm_num [flight_plan_coordinates],
    ?_, ?_, ?_⟩
  · intro s lp lv h1 h2
    simp [local_position_callback, h1, h2]
  · intro s gp gh lp h
    simp [velocity_callback, h]
  · intro s gp him hf
    rcases hf with hf | hf | hf <;>
      · have h1 : ¬ s.flight_state = States.MANUAL := by
          rw [hf]; intro h; cases h
        have h2 : ¬ s.flight_state = States.ARMING := by
          rw [hf]; intro h; cases h
        have h3 : ¬ s.flight_state = States.DISARMING := by
          rw [hf]; intro h; cases h
        simp [state_callback, him, h1, h2, h3]

/-- Witness for C8 (amended): a position sample delivered in phase
`Landing` (matching neither position-handler guard) is a no-op. -/
theorem no_error_conditions_witness :
    (calculate_box_from ⟨1, 2, 3, 4, 5⟩).length = 4 ∧
    local_position_callback
      { target_position := ⟨0, 0, 3⟩, all_waypoints := [],
        in_mission := true, flight_state := States.LANDING }
      ⟨0, 0, 0⟩ ⟨0, 0, 0⟩ =
      some ( { target_position := ⟨0, 0, 3⟩, all_waypoints := [],
               in_mission := true, flight_state := States.LANDING }
           , [] ) ∧
    velocity_callback
      { target_position := ⟨0, 0, 3⟩, all_waypoints := [],
        in_mission := true, flight_state := States.TAKEOFF }
      ⟨0, 0, 0⟩ ⟨0, 0, 0⟩ ⟨0, 0, 0⟩ =
      ( { target_position := ⟨0, 0, 3⟩, all_waypoints := [],
          in_mission := true, flight_state := States.TAKEOFF }
      , [] ) ∧
    state_callback
      { target_position := ⟨0, 0, 3⟩, all_waypoints := [],
        in_mission := true, flight_state := States.LANDING }
      ⟨0, 0, 0⟩ =
      ( { target_position := ⟨0, 0, 3⟩, all_waypoints := [],
          in_mission := true, flight_state := States.LANDING }
      , [] ) :=
  ⟨no_error_conditions.1 ⟨1, 2, 3, 4, 5⟩,
   no_error_conditions.2.2.2.1
     { target_position := ⟨0, 0, 3⟩, all_waypoints := [],
       in_mission := true, flight_state := States.LANDING }
     ⟨0, 0, 0⟩ ⟨0, 0, 0⟩ (by intro h; cases h) (by intro h; cases h),
   no_error_conditions.2.2.2.2.1
     { target_position := ⟨0, 0, 3⟩, all_waypoints := [],
       in_mission := true, flight_state := States.TAKEOFF }
     ⟨0, 0, 0⟩ ⟨0, 0, 0⟩ ⟨0, 0, 0⟩ (by intro h; cases h),
   no_error_conditions.2.2.2.2.2
     { target_position := ⟨0, 0, 3⟩, all_waypoints := [],
       in_mission := true, flight_state := States.LANDING }
     ⟨0, 0, 0⟩ rfl (Or.inr (Or.inr rfl))⟩

/-- C9 counterexample: the state entry point on the initial session
(phase `Manual`, in mission) returns three command intents —
take-control, arm and set-home — not at most one. -/
theorem single_command_counterexample :
    (state_callback initSession ⟨0, 0, 0⟩).2.length = 3 ∧
    ¬ (state_callback initSession ⟨0, 0, 0⟩).2.length ≤ 1 := by
  constructor
  · rfl
  · intro h
    simp [state_callback, initSession, arming_transition] at h

/-- C9 (amended). The position and velocity entry points return at
most one command intent per delivered sample; the state entry point
returns at most three (three on `Manual → Arming`, two on
`Disarming → Manual`, one on `Arming → Takeoff`, zero otherwise). -/
theorem command_count_spec :
    (∀ (s : Session) (lp lv : Vec3) (s' : Session)
        (cmds : List Command),
      local_position_callback s lp lv = some (s', cmds) →
      cmds.length ≤ 1) ∧
    (∀ (s : Session) (gp gh lp : Vec3),
      (velocity_callback s gp gh lp).2.length ≤ 1) ∧
    (∀ (s : Session) (gp : Vec3),
      (state_callback s gp).2.length ≤ 3) := by
  refine ⟨?_, ?_, ?_⟩
  · intro s lp lv s' cmds h
    unfold local_position_callback at h
    split_ifs at h with h1 h2 h3 h4 h5 h6
    · obtain ⟨w, rest, -, -, hc⟩ := waypoint_transition_eq h
      rw [hc]
      exact le_refl 1
    · simp only [Option.some.injEq, Prod.mk.injEq] at h
      rw [← h.2]
      exact Nat.zero_le 1
    · obtain ⟨w, rest, -, -, hc⟩ := waypoint_transition_eq h
      rw [hc]
      exact le_refl 1
    · simp only [landing_transition, Option.some.injEq,
        Prod.mk.injEq] at h
      rw [← h.2]
      exact le_refl 1
    · simp only [Option.some.injEq, Prod.mk.injEq] at h
      rw [← h.2]
      exact Nat.zero_le 1
    · simp only [Option.some.injEq, Prod.mk.injEq] at h
      rw [← h.2]
      exact Nat.zero_le 1
    · simp only [Option.some.injEq, Prod.mk.injEq] at h
      rw [← h.2]
      exact Nat.zero_le 1
  · intro s gp gh lp
    unfold velocity_callback
    split_ifs <;> simp [disarming_transition]
  · intro s gp
    unfold state_callback
    split_ifs <;>
      simp [arming_transition, takeoff_transition, manual_transition]

/-- Witness for C9 (amended): the position handler on the initial
session emits no command. -/
theorem command_count_spec_witness :
    local_position_callback initSession ⟨0, 0, 0⟩ ⟨0, 0, 0⟩ =
      some (initSession, []) ∧
    ([] : List Command).length ≤ 1 :=
  ⟨rfl, command_count_spec.1 initSession ⟨0, 0, 0⟩ ⟨0, 0, 0⟩
    initSession [] rfl⟩

/-- C10. Phase-order invariant: every delivered event either leaves
the phase unchanged or advances it to its immediate successor in the
fixed cycle `Manual → Arming → Takeoff → Waypoint → Landing →
Disarming → Manual` (never skipping or moving backward); and in every
reachable session, phase `Waypoint` implies at most 3 queued waypoints
while phases `Landing` and `Disarming` imply an empty queue. -/
theorem phase_order_invariant :
    (∀ (s : Session) (e : Event) (s' : Session) (cmds : List Command),
      step s e = some (s', cmds) →
      s'.flight_state = s.flight_state ∨
      s'.flight_state = nextPhase s.flight_state) ∧
    (∀ s : Session, Reachable s →
      (s.flight_state = States.WAYPOINT →
        s.all_waypoints.length ≤ 3) ∧
      ((s.flight_state = States.LANDING ∨
        s.flight_state = States.DISARMING) →
        s.all_waypoints = [])) := by
  constructor
  · intro s e s' cmds h
    rcases step_phase_queue h with ⟨hs, -⟩ | ⟨h1, h2, -⟩ | ⟨h1, h2, -⟩
      | ⟨h1, h2, -, -⟩ | ⟨h1, h2, -⟩ | ⟨h1, h2, -⟩ | ⟨h1, h2, -⟩
      | ⟨h1, h2, -⟩
    · left; rw [hs]
    · right; rw [h2, h1]; rfl
    · left; rw [h2, h1]
    · right; rw [h2, h1]; rfl
    · right; rw [h2, h1]; rfl
    · right; rw [h2, h1]; rfl
    · right; rw [h2, h1]; rfl
    · right; rw [h2, h1]; rfl
  · intro s hr
    induction hr with
    | init =>
        refine ⟨fun hf => ?_, fun hf => ?_⟩
        · cases hf
        · rcases hf with hf | hf <;> cases hf
    | step hr hstep ih =>
        rcases step_phase_queue hstep with ⟨hs, -⟩ | ⟨h1, h2, h3⟩
          | ⟨h1, h2, h3⟩ | ⟨h1, h2, h3, h4⟩ | ⟨h1, h2, h3⟩
          | ⟨h1, h2, h3⟩ | ⟨h1, h2, h3⟩ | ⟨h1, h2, h3⟩
        · rw [hs]; exact ih
        · refine ⟨fun _ => le_of_eq h3, fun hf => ?_⟩
          rcases hf with hf | hf <;> rw [h2] at hf <;> cases hf
        · refine ⟨fun _ => ?_, fun hf => ?_⟩
          · have hle := ih.1 h1
            omega
          · rcases hf with hf | hf <;> rw [h2] at hf <;> cases hf
        · refine ⟨fun hf => ?_, fun _ => by rw [h3, h4]⟩
          rw [h2] at hf; cases hf
        · refine ⟨fun hf => ?_, fun _ => ?_⟩
          · rw [h2] at hf; cases hf
          · rw [h3]
            exact ih.2 (Or.inl h1)
        · refine ⟨fun hf => ?_, fun hf => ?_⟩
          · rw [h2] at hf; cases hf
          · rcases hf with hf | hf <;> rw [h2] at hf <;> cases hf
        · refine ⟨fun hf => ?_, fun hf => ?_⟩
          · rw [h2] at hf; cases hf
          · rcases hf with hf | hf <;> rw [h2] at hf <;> cases hf
        · refine ⟨fun hf => ?_, fun hf => ?_⟩
          · rw [h2] at hf; cases hf
          · rcases hf with hf | hf <;> rw [h2] at hf <;> cases hf

/-- Witness for C10: the first state event from the initial session,
and the invariant at the (reachable) initial session. -/
theorem phase_order_invariant_witness :
    (({ initSession with flight_state := States.ARMING } :
        Session).flight_state = initSession.flight_state ∨
      ({ initSession with flight_state := States.ARMING } :
        Session).flight_state = nextPhase initSession.flight_state) ∧
    ((initSession.flight_state = States.WAYPOINT →
        initSession.all_waypoints.length ≤ 3) ∧
      ((initSession.flight_state = States.LANDING ∨
        initSession.flight_state = States.DISARMING) →
        initSession.all_waypoints = [])) :=
  ⟨phase_order_invariant.1 initSession (Event.state ⟨0, 0, 0⟩)
      { initSession with flight_state := States.ARMING }
      [ Command.take_control, Command.arm
      , Command.set_home_position 0 0 0 ] rfl,
   phase_order_invariant.2 initSession Reachable.init⟩

end BackyardFlyer
